import Mathlib

/-!
Verification of the retrieval core of the LLM_Doc_Reviewer repository.

The definitions below are a shallow embedding of the Python sources:
  - `src/auto_reviewer/config.py`   (data model: `DocumentChunk`, `RetrievalConfig`, ...)
  - `src/auto_reviewer/vectordb.py` (`VectorDatabase`, `MultiAgentVectorDB`)
  - `src/auto_reviewer/rag.py`      (`RAGContext`, `RAGSystem`)

Numeric values (numpy float32 / FAISS scores) are modelled as exact real
numbers; the FAISS flat indexes (`IndexFlatIP`, `IndexFlatL2`) are modelled
by their documented exact-search semantics: all pairwise scores are
computed, and the `k` best are returned ordered by descending inner product
(for `IndexFlatIP`) respectively ascending squared L2 distance (for
`IndexFlatL2`), with ties broken by ascending insertion position.
Python exceptions are modelled with `Except String`.
-/

namespace AutoReviewer

/-- Document chunk with metadata (`config.DocumentChunk`, a frozen pydantic
model: `paragraph_id`, `text`, `hash`, `page_number`, `chunk_index`). -/
structure DocumentChunk where
  paragraph_id : String
  text : String
  hash : String
  page_number : Option Int
  chunk_index : Nat
deriving DecidableEq

instance : Inhabited DocumentChunk := ⟨⟨"", "", "", none, 0⟩⟩

/-- Retrieval configuration (`config.RetrievalConfig`). -/
structure RetrievalConfig where
  top_k : Nat
  use_neighbors : Bool
  similarity_threshold : ℝ

/-- Agent configuration (`config.AgentConfig`); the prompting fields
`tone`, `goals` and `rubric` are opaque to the retrieval core and kept as
plain data. -/
structure AgentConfig where
  name : String
  tone : String
  goals : List String
  kb_refs : List String
  retrieval : RetrievalConfig

noncomputable section

/-- Inner product of two equal-dimension vectors (the score computed by
`faiss.IndexFlatIP`). -/
def innerProd (a b : List ℝ) : ℝ := (List.zipWith (fun x y => x * y) a b).sum

/-- Squared L2 distance (the score computed by `faiss.IndexFlatL2`). -/
def distL2sq (a b : List ℝ) : ℝ := (List.zipWith (fun x y => (x - y) * (x - y)) a b).sum

/-- Euclidean norm of a vector (`np.linalg.norm`). -/
def npNorm (v : List ℝ) : ℝ := Real.sqrt ((v.map fun x => x * x).sum)

/-- Row normalization performed by `add_chunks` for `IndexFlatIP`
(`embeddings = embeddings / norms`, vectordb.py lines 73-74), in exact real
arithmetic.  This is faithful for rows of nonzero norm; the IEEE behaviour
of the same line on a zero-norm row (numpy produces NaN entries, since the
source has no norm-zero guard on this path) is modelled separately by
`npStoredRow` below. -/
def normalizeRow (v : List ℝ) : List ℝ := v.map fun x => x / npNorm v

/-- Query normalization performed by `search` for `IndexFlatIP`
(vectordb.py lines 116-120): divide by the norm only when the norm is
positive. -/
def normalizeQuery (index_type : String) (q : List ℝ) : List ℝ :=
  if index_type = "IndexFlatIP" then
    (if 0 < npNorm q then q.map fun x => x / npNorm q else q)
  else q

/-- FAISS vector database over document chunks (`vectordb.VectorDatabase`).
The FAISS index contents are the stored vectors in insertion order; the
parallel `chunks` list is kept exactly as in the source. -/
structure VectorDatabase where
  embedding_dim : ℤ
  index_type : String
  vectors : List (List ℝ)
  chunks : List DocumentChunk

/-- Constructor (`VectorDatabase.__init__`): only the index type is
validated; the dimension is stored unchecked (the source performs no
check on `embedding_dim`, and `faiss.IndexFlat` accepts it as given). -/
def VectorDatabase.init (embedding_dim : ℤ) (index_type : String) :
    Except String VectorDatabase :=
  if index_type = "IndexFlatIP" then
    Except.ok ⟨embedding_dim, index_type, [], []⟩
  else if index_type = "IndexFlatL2" then
    Except.ok ⟨embedding_dim, index_type, [], []⟩
  else
    Except.error ("Unsupported index type: " ++ index_type)

/-- Bulk insertion (`VectorDatabase.add_chunks`): checks that the chunk and
embedding counts match and that every row has the index dimension, then
normalizes the rows for `IndexFlatIP` and appends vectors and chunks. -/
def VectorDatabase.add_chunks (db : VectorDatabase) (chunks : List DocumentChunk)
    (embeddings : List (List ℝ)) : Except String VectorDatabase :=
  if chunks.length ≠ embeddings.length then
    Except.error ("Number of chunks must match number of embeddings")
  else if ¬ (∀ row ∈ embeddings, (row.length : ℤ) = db.embedding_dim) then
    Except.error ("Embedding dimension mismatch")
  else
    let rows := if db.index_type = "IndexFlatIP" then embeddings.map normalizeRow else embeddings
    Except.ok { db with vectors := db.vectors ++ rows, chunks := db.chunks ++ chunks }

/-- Pair each list element with its position, starting at `n` (the internal
positional ids a FAISS flat index assigns in insertion order). -/
def idxFrom (n : ℕ) : List ℝ → List (ℕ × ℝ)
  | [] => []
  | a :: l => (n, a) :: idxFrom (n + 1) l

/-- Result order of a FAISS flat-index search: descending score for an
inner-product index, ascending for an L2 index; ties broken by ascending
insertion position. -/
def faissBefore (descending : Bool) (a b : ℕ × ℝ) : Prop :=
  (if descending then b.2 < a.2 else a.2 < b.2) ∨ (a.2 = b.2 ∧ a.1 ≤ b.1)

instance faissBefore.decRel (descending : Bool) : DecidableRel (faissBefore descending) :=
  fun a b => by unfold faissBefore; infer_instance

/-- Scores of the (already normalized) query against every stored vector,
in insertion order, as computed by the FAISS index of the given type. -/
def VectorDatabase.rawScores (db : VectorDatabase) (q : List ℝ) : List ℝ :=
  if db.index_type = "IndexFlatIP" then db.vectors.map fun v => innerProd v q
  else db.vectors.map fun v => distL2sq v q

/-- Scores of a raw query vector against the database, after the query
normalization that `search` applies (vectordb.py lines 116-120). -/
def VectorDatabase.queryScores (db : VectorDatabase) (query_embedding : List ℝ) : List ℝ :=
  db.rawScores (normalizeQuery db.index_type query_embedding)

/-- The `index.search` call of a FAISS flat index: the `k` best (index,
score) pairs in the order described by `faissBefore`. -/
def VectorDatabase.faissTop (db : VectorDatabase) (scores : List ℝ) (k : ℕ) :
    List (ℕ × ℝ) :=
  (List.insertionSort (faissBefore (db.index_type = "IndexFlatIP")) (idxFrom 0 scores)).take k

/-- Similarity search (`VectorDatabase.search`): empty result on an empty
index, otherwise normalize the query (cosine metric only), retrieve the
top `min k ntotal` FAISS results and keep those with
`similarity >= similarity_threshold`, paired with their chunks. -/
def VectorDatabase.search (db : VectorDatabase) (query_embedding : List ℝ)
    (k : ℕ) (similarity_threshold : ℝ) : List (DocumentChunk × ℝ) :=
  if db.vectors.length = 0 then []
  else
    let top := db.faissTop (db.queryScores query_embedding) (min k db.vectors.length)
    ((top.filter fun p => decide (similarity_threshold ≤ p.2)).map
      fun p => (db.chunks.getD p.1 default, p.2))

/-- Factory (`VectorDatabase.create_from_chunks`): refuses an empty chunk
list, otherwise reads the dimension off the embedding matrix, builds the
index and bulk-inserts. -/
def VectorDatabase.create_from_chunks (chunks : List DocumentChunk)
    (embeddings : List (List ℝ)) (index_type : String) : Except String VectorDatabase :=
  if chunks.length = 0 then
    Except.error ("Cannot create database from empty chunks")
  else do
    let db ← VectorDatabase.init ((embeddings.headD []).length : ℤ) index_type
    db.add_chunks chunks embeddings

/-- Association-list update modelling assignment into the Python dict
`self.databases[agent_name] = ...`. -/
def dictInsert (name : String) (db : VectorDatabase) :
    List (String × VectorDatabase) → List (String × VectorDatabase)
  | [] => [(name, db)]
  | (n, d) :: rest =>
      if n = name then (name, db) :: rest else (n, d) :: dictInsert name db rest

/-- Manager for the main index plus named per-agent indexes
(`vectordb.MultiAgentVectorDB`). -/
structure MultiAgentVectorDB where
  embedding_dim : ℤ
  databases : List (String × VectorDatabase)
  main_db : Option VectorDatabase

/-- Registry method `create_main_database`: builds the main index with
the default `IndexFlatIP` type; on failure the registry is unchanged (the
assignment to `self.main_db` never executes). -/
def MultiAgentVectorDB.create_main_database (reg : MultiAgentVectorDB)
    (chunks : List DocumentChunk) (embeddings : List (List ℝ)) :
    Except String MultiAgentVectorDB := do
  let db ← VectorDatabase.create_from_chunks chunks embeddings ("IndexFlatIP")
  Except.ok { reg with main_db := some db }

/-- Registry method `create_agent_database`: builds a knowledge-base
index for the agent only when the chunk list is nonempty; an empty list is
a silent no-op. -/
def MultiAgentVectorDB.create_agent_database (reg : MultiAgentVectorDB)
    (agent_name : String) (kb_chunks : List DocumentChunk)
    (kb_embeddings : List (List ℝ)) : Except String MultiAgentVectorDB :=
  if 0 < kb_chunks.length then do
    let db ← VectorDatabase.create_from_chunks kb_chunks kb_embeddings ("IndexFlatIP")
    Except.ok { reg with databases := dictInsert agent_name db reg.databases }
  else Except.ok reg

/-- Registry lookup `get_database`: `none` resolves to the main index
(a fatal error when uninitialized); a name resolves to that agent's index,
with a distinct error for an unknown agent. -/
def MultiAgentVectorDB.get_database (reg : MultiAgentVectorDB) :
    Option String → Except String VectorDatabase
  | none =>
      match reg.main_db with
      | none => Except.error ("Main database not initialized")
      | some db => Except.ok db
  | some n =>
      match reg.databases.lookup n with
      | none => Except.error ("No database found for agent: " ++ n)
      | some db => Except.ok db

/-- Retrieval context for one (chunk, agent) pair (`rag.RAGContext`). -/
structure RAGContext where
  target_chunk : DocumentChunk
  retrieved_chunks : List (DocumentChunk × ℝ)
  agent_knowledge : List (DocumentChunk × ℝ)
  global_rubric : Option String

/-- RAG system (`rag.RAGSystem`): the registry, the external embedding
provider (modelled as an opaque text-to-vector function, single-item
batches) and the optional global rubric. -/
structure RAGSystem where
  vector_db : MultiAgentVectorDB
  embed_text : String → List ℝ
  global_rubric : Option String

/-- Context assembly `get_context_for_chunk`: embed the chunk text, search the
main index, drop self-matches by `paragraph_id`, then search the agent's
knowledge base if one is registered (`except ValueError: pass` gives an
empty list otherwise). -/
def RAGSystem.get_context_for_chunk (sys : RAGSystem) (chunk : DocumentChunk)
    (agent_config : AgentConfig) : Except String RAGContext := do
  let query_embedding := sys.embed_text chunk.text
  let main_db ← sys.vector_db.get_database none
  let retrieved := main_db.search query_embedding
      agent_config.retrieval.top_k agent_config.retrieval.similarity_threshold
  let retrieved_chunks := retrieved.filter
      fun p => decide (p.1.paragraph_id ≠ chunk.paragraph_id)
  let agent_knowledge :=
    match sys.vector_db.get_database (some agent_config.name) with
    | Except.error _ => []
    | Except.ok agent_db =>
        agent_db.search query_embedding
          agent_config.retrieval.top_k agent_config.retrieval.similarity_threshold
  Except.ok ⟨chunk, retrieved_chunks, agent_knowledge, sys.global_rubric⟩

/-- Model of the Python newline join used at rag.py line 75. -/
def joinNL : List String → String
  | [] => ""
  | [s] => s
  | s :: rest => s ++ "\n" ++ joinNL rest

/-- The `context_parts` list assembled by
`RAGContext.format_context_for_agent` (rag.py lines 50-72).  The opaque
parameter `fmt2` renders a score with two decimals (Python `f"{s:.2f}"`);
none of the verified properties depend on it.  Python truthiness makes the
rubric section appear only for a nonempty rubric string, and the match
sections only for nonempty match lists. -/
def RAGContext.context_parts (fmt2 : ℝ → String) (ctx : RAGContext)
    (agent_name : String) : List String :=
  (if (ctx.global_rubric.getD "").isEmpty then []
   else ["GLOBAL RUBRIC:\n" ++ ctx.global_rubric.getD "" ++ "\n"])
  ++ (if ctx.retrieved_chunks.isEmpty then []
      else ("RELEVANT DOCUMENT CONTEXT:") ::
        ((ctx.retrieved_chunks.take 3).map fun p =>
          "[Similarity: " ++ fmt2 p.2 ++ "] " ++ p.1.text) ++ [""])
  ++ (if ctx.agent_knowledge.isEmpty then []
      else ("KNOWLEDGE BASE (for " ++ agent_name ++ "):") ::
        ((ctx.agent_knowledge.take 2).map fun p =>
          "[Similarity: " ++ fmt2 p.2 ++ "] " ++ p.1.text) ++ [""])
  ++ ["PARAGRAPH TO REVIEW (ID: " ++ ctx.target_chunk.paragraph_id ++ "):",
      ctx.target_chunk.text]

/-- The reserved target section built in the truncation branch
(rag.py line 79). -/
def RAGContext.target_text (ctx : RAGContext) : String :=
  "\nPARAGRAPH TO REVIEW (ID: " ++ ctx.target_chunk.paragraph_id ++ "):\n"
    ++ ctx.target_chunk.text

/-- The joined context before any truncation (rag.py line 75). -/
def RAGContext.full_context (fmt2 : ℝ → String) (ctx : RAGContext)
    (agent_name : String) : String :=
  joinNL (ctx.context_parts fmt2 agent_name)

/-- The length budget left for the truncated prefix (rag.py line 80); an
integer because it can be negative. -/
def RAGContext.available_length (ctx : RAGContext) (max_context_length : ℕ) : ℤ :=
  (max_context_length : ℤ) - ((RAGContext.target_text ctx).length : ℤ) - 50

/-- Formatter `format_context_for_agent` (rag.py lines 39-89): join the
sections; when the result exceeds the cap, keep a prefix of the joined
context followed by an explicit truncation marker and the intact target
section, or the target section alone when no budget is left. -/
def RAGContext.format_context_for_agent (fmt2 : ℝ → String) (ctx : RAGContext)
    (agent_name : String) (max_context_length : ℕ) : String :=
  let full := ctx.full_context fmt2 agent_name
  if full.length > max_context_length then
    (if 0 < ctx.available_length max_context_length then
      full.take (ctx.available_length max_context_length).toNat
        ++ "\n[...CONTEXT TRUNCATED...]\n" ++ RAGContext.target_text ctx
    else RAGContext.target_text ctx)
  else full

/-- Value of one numpy float division, with the IEEE special cases made
explicit: NaN, a signed infinity, or a finite real. -/
inductive NpFloat where
  | nan : NpFloat
  | posInf : NpFloat
  | negInf : NpFloat
  | val : ℝ → NpFloat

/-- numpy elementwise division `x / n` including its zero-denominator
behaviour: `0.0 / 0.0` is NaN and `x / 0.0` for nonzero `x` is a signed
infinity (numpy emits a RuntimeWarning but raises no exception); otherwise
the finite quotient. -/
def npDiv (x n : ℝ) : NpFloat :=
  if n = 0 then
    (if x = 0 then NpFloat.nan else if 0 < x then NpFloat.posInf else NpFloat.negInf)
  else NpFloat.val (x / n)

/-- The row actually stored by the unguarded normalization
`embeddings = embeddings / norms` of `add_chunks` (vectordb.py lines
73-74), with numpy's zero-denominator semantics explicit.  For rows of
nonzero norm this coincides with `normalizeRow`; `add_chunks` has no
norm-zero guard, unlike the query normalization in `search`. -/
def npStoredRow (v : List ℝ) : List NpFloat := v.map fun x => npDiv x (npNorm v)

/-- The section of the formatted output that carries the target chunk's
identifier and its complete text (the tail of `context_parts`, equally the
tail of the reserved `target_text`). -/
def RAGContext.target_section (ctx : RAGContext) : String :=
  "PARAGRAPH TO REVIEW (ID: " ++ ctx.target_chunk.paragraph_id ++ "):" ++ "\n"
    ++ ctx.target_chunk.text

/-- Concrete context used to exercise the truncation branch: empty match
lists, a 200-character rubric and a short target chunk. -/
def w9ctx : RAGContext :=
  ⟨⟨"p1", "T", "h", none, 0⟩, [], [], some (String.mk (List.replicate 200 'x'))⟩

/-- Concrete chunks and database of an `IndexFlatL2` index holding the
unit vectors `[1,0]` and `[0,1]`. -/
def cexChunk1 : DocumentChunk := ⟨"p1", "first", "h1", none, 0⟩

def cexChunk2 : DocumentChunk := ⟨"p2", "second", "h2", none, 1⟩

def cexDbL2 : VectorDatabase :=
  ⟨2, "IndexFlatL2", [[1, 0], [0, 1]], [cexChunk1, cexChunk2]⟩

/-- Concrete chunks of the spec's cosine scenario: three chunks with the
4-dimensional vectors `[1,0,0,0]`, `[0,1,0,0]` and `[0.9,0.1,0,0]`. -/
def demoChunk1 : DocumentChunk := ⟨"c1", "one", "h1", none, 0⟩

def demoChunk2 : DocumentChunk := ⟨"c2", "two", "h2", none, 1⟩

def demoChunk3 : DocumentChunk := ⟨"c3", "three", "h3", none, 2⟩

/-- The cosine-metric database built by the scenario: the three vectors,
L2-normalized on insertion. -/
def demoDb : VectorDatabase :=
  ⟨4, "IndexFlatIP",
   ([[1, 0, 0, 0], [0, 1, 0, 0], [0.9, 0.1, 0, 0]] : List (List ℝ)).map normalizeRow,
   [demoChunk1, demoChunk2, demoChunk3]⟩

end

/-! ## Order facts for the FAISS result order -/

instance faissBefore.isTotal (descending : Bool) :
    IsTotal (ℕ × ℝ) (faissBefore descending) := by
  refine ⟨fun a b => ?_⟩
  unfold faissBefore
  rcases lt_trichotomy a.2 b.2 with h | h | h
  · cases descending
    · exact Or.inl (Or.inl h)
    · exact Or.inr (Or.inl h)
  · rcases Nat.le_total a.1 b.1 with hn | hn
    · exact Or.inl (Or.inr ⟨h, hn⟩)
    · exact Or.inr (Or.inr ⟨h.symm, hn⟩)
  · cases descending
    · exact Or.inr (Or.inl h)
    · exact Or.inl (Or.inl h)

instance faissBefore.isTrans (descending : Bool) :
    IsTrans (ℕ × ℝ) (faissBefore descending) := by
  refine ⟨fun a b c hab hbc => ?_⟩
  unfold faissBefore at *
  cases descending <;> simp only [Bool.false_eq_true, if_true, if_false, ite_true, ite_false] at *
  · rcases hab with h1 | ⟨e1, n1⟩ <;> rcases hbc with h2 | ⟨e2, n2⟩
    · exact Or.inl (h1.trans h2)
    · exact Or.inl (e2 ▸ h1)
    · exact Or.inl (e1 ▸ h2)
    · exact Or.inr ⟨e1.trans e2, n1.trans n2⟩
  · rcases hab with h1 | ⟨e1, n1⟩ <;> rcases hbc with h2 | ⟨e2, n2⟩
    · exact Or.inl (h2.trans h1)
    · exact Or.inl (e2 ▸ h1)
    · exact Or.inl (e1.symm ▸ h2)
    · exact Or.inr ⟨e1.trans e2, n1.trans n2⟩

theorem idxFrom_length (n : ℕ) (l : List ℝ) : (idxFrom n l).length = l.length := by
  induction l generalizing n with
  | nil => rfl
  | cons a l ih => simp [idxFrom, ih]

theorem snd_mem_of_mem_idxFrom {p : ℕ × ℝ} {n : ℕ} {l : List ℝ}
    (h : p ∈ idxFrom n l) : p.2 ∈ l := by
  induction l generalizing n with
  | nil => simp [idxFrom] at h
  | cons a l ih =>
      simp only [idxFrom, List.mem_cons] at h
      rcases h with h | h
      · rw [h]; exact List.mem_cons_self a l
      · exact List.mem_cons_of_mem a (ih h)

/-! ## Basic facts about `VectorDatabase.search` -/

theorem VectorDatabase.queryScores_length (db : VectorDatabase) (q : List ℝ) :
    (db.queryScores q).length = db.vectors.length := by
  unfold VectorDatabase.queryScores VectorDatabase.rawScores
  split <;> rw [List.length_map]

theorem VectorDatabase.faissTop_length (db : VectorDatabase) (scores : List ℝ) (k : ℕ) :
    (db.faissTop scores k).length = min k scores.length := by
  unfold VectorDatabase.faissTop
  rw [List.length_take, (List.perm_insertionSort _ _).length_eq, idxFrom_length]

theorem VectorDatabase.mem_faissTop (db : VectorDatabase) {scores : List ℝ} {k : ℕ}
    {x : ℕ × ℝ} (hx : x ∈ db.faissTop scores k) : x.2 ∈ scores := by
  unfold VectorDatabase.faissTop at hx
  have h1 : x ∈ List.insertionSort
      (faissBefore (decide (db.index_type = "IndexFlatIP"))) (idxFrom 0 scores) :=
    (List.take_sublist _ _).subset hx
  exact snd_mem_of_mem_idxFrom ((List.perm_insertionSort _ _).mem_iff.mp h1)

theorem VectorDatabase.faissTop_sorted (db : VectorDatabase) (scores : List ℝ) (k : ℕ) :
    (db.faissTop scores k).Pairwise
      (faissBefore (decide (db.index_type = "IndexFlatIP"))) := by
  unfold VectorDatabase.faissTop
  exact (List.sorted_insertionSort _ _).sublist (List.take_sublist _ _)

theorem VectorDatabase.search_length_le (db : VectorDatabase) (q : List ℝ) (k : ℕ) (t : ℝ) :
    (db.search q k t).length ≤ min k db.vectors.length := by
  unfold VectorDatabase.search
  split
  · simp
  · rw [List.length_map]
    calc ((db.faissTop (db.queryScores q) (min k db.vectors.length)).filter
            fun p => decide (t ≤ p.2)).length
        ≤ (db.faissTop (db.queryScores q) (min k db.vectors.length)).length :=
          List.length_filter_le _ _
      _ = min k db.vectors.length := by
          rw [VectorDatabase.faissTop_length, VectorDatabase.queryScores_length,
            min_assoc, min_self]

theorem VectorDatabase.search_pairwise (db : VectorDatabase) (q : List ℝ) (k : ℕ) (t : ℝ)
    (R : ℝ → ℝ → Prop)
    (hR : ∀ a b : ℕ × ℝ, faissBefore (decide (db.index_type = "IndexFlatIP")) a b → R a.2 b.2) :
    (db.search q k t).Pairwise fun a b => R a.2 b.2 := by
  unfold VectorDatabase.search
  split
  · exact List.Pairwise.nil
  · rw [List.pairwise_map]
    exact ((db.faissTop_sorted _ _).sublist (List.filter_sublist _)).imp
      fun {a b} h => hR a b h

theorem VectorDatabase.mem_search (db : VectorDatabase) (q : List ℝ) (k : ℕ) (t : ℝ)
    {p : DocumentChunk × ℝ} (hp : p ∈ db.search q k t) :
    t ≤ p.2 ∧ p.2 ∈ db.queryScores q := by
  unfold VectorDatabase.search at hp
  split at hp
  · exact absurd hp (List.not_mem_nil p)
  · rw [List.mem_map] at hp
    obtain ⟨x, hx, hxp⟩ := hp
    rw [List.mem_filter] at hx
    have h2 : p.2 = x.2 := by rw [← hxp]
    constructor
    · rw [h2]; exact of_decide_eq_true hx.2
    · rw [h2]; exact db.mem_faissTop hx.1

theorem VectorDatabase.search_empty_of_empty (db : VectorDatabase) (q : List ℝ)
    (k : ℕ) (t : ℝ) (h : db.vectors = []) : db.search q k t = [] := by
  unfold VectorDatabase.search
  rw [h]
  simp

theorem VectorDatabase.search_empty_of_below (db : VectorDatabase) (q : List ℝ)
    (k : ℕ) (t : ℝ) (h : ∀ s ∈ db.queryScores q, s < t) : db.search q k t = [] := by
  unfold VectorDatabase.search
  split
  · rfl
  · rw [List.map_eq_nil_iff, List.filter_eq_nil_iff]
    intro x hx
    simp only [decide_eq_true_eq]
    exact not_le.mpr (h x.2 (db.mem_faissTop hx))

theorem VectorDatabase.search_length_antitone (db : VectorDatabase) (q : List ℝ)
    (k : ℕ) {t t' : ℝ} (h : t ≤ t') :
    (db.search q k t').length ≤ (db.search q k t).length := by
  unfold VectorDatabase.search
  split
  · exact le_refl _
  · rw [List.length_map, List.length_map]
    refine (List.monotone_filter_right _ fun a ha => ?_).length_le
    exact decide_eq_true (le_trans h (of_decide_eq_true ha))

/-! ## Claim C2 -/

/-- C2: no match returned by `search` has a score below `min_score`, and for
the same database, query and `k`, raising the threshold never increases the
number of returned matches. -/
theorem C2_threshold_filter (db : VectorDatabase) (q : List ℝ) (k : ℕ) (t t' : ℝ) :
    (∀ p ∈ db.search q k t, t ≤ p.2) ∧
    (t ≤ t' → (db.search q k t').length ≤ (db.search q k t).length) :=
  ⟨fun _ hp => (db.mem_search q k t hp).1,
   fun h => db.search_length_antitone q k h⟩

/-- C2 witness: the count antitonicity at a concrete database, query and
pair of thresholds. -/
theorem C2_threshold_filter_witness :
    (VectorDatabase.search ⟨3, "IndexFlatIP", [], []⟩ [1, 0, 0] 4 (7/10)).length ≤
      (VectorDatabase.search ⟨3, "IndexFlatIP", [], []⟩ [1, 0, 0] 4 (1/2)).length :=
  (C2_threshold_filter ⟨3, "IndexFlatIP", [], []⟩ [1, 0, 0] 4 (1/2) (7/10)).2 (by norm_num)

/-! ## Claim C4 -/

/-- C4: a context assembled by `get_context_for_chunk` never contains a
main-document match whose chunk identifier equals the target chunk's
`paragraph_id` (self-exclusion). -/
theorem C4_self_exclusion (sys : RAGSystem) (chunk : DocumentChunk) (cfg : AgentConfig)
    (ctx : RAGContext) (h : sys.get_context_for_chunk chunk cfg = Except.ok ctx) :
    ctx.retrieved_chunks.all
      (fun p => decide (p.1.paragraph_id ≠ chunk.paragraph_id)) = true := by
  unfold RAGSystem.get_context_for_chunk at h
  cases hm : sys.vector_db.get_database none with
  | error e => rw [hm] at h; simp [Bind.bind, Except.bind] at h
  | ok mdb =>
      rw [hm] at h
      simp only [Bind.bind, Except.bind, Except.ok.injEq] at h
      rw [← h]
      exact List.all_eq_true.mpr fun x hx => (List.mem_filter.mp hx).2

/-- C4 witness: self-exclusion evaluated on a concrete system whose main
database is set. -/
theorem C4_self_exclusion_witness :
    (RAGContext.retrieved_chunks ⟨⟨"p1", "text", "h", none, 0⟩, [], [], none⟩).all
      (fun p => decide (p.1.paragraph_id ≠ ("p1" : String))) = true :=
  C4_self_exclusion ⟨⟨2, [], some ⟨2, "IndexFlatIP", [], []⟩⟩, fun _ => [], none⟩
    ⟨"p1", "text", "h", none, 0⟩ ⟨"a", "tone", [], [], ⟨4, true, 7/10⟩⟩
    ⟨⟨"p1", "text", "h", none, 0⟩, [], [], none⟩ rfl

/-! ## Claim C5 -/

/-- C5: what the code actually does on a zero vector.  The unguarded
normalization of `add_chunks` (vectordb.py lines 73-74) divides by the zero
norm, so every entry of the stored row is `0.0 / 0.0 = NaN` — not the
all-zero row the claim describes — while no exception is raised
(`add_chunks` succeeds); the norm-positive guard exists only in `search`'s
query normalization (lines 116-120), which leaves a zero query unchanged. -/
theorem C5_zero_norm_row :
    npStoredRow ([0, 0, 0, 0] : List ℝ) =
      [NpFloat.nan, NpFloat.nan, NpFloat.nan, NpFloat.nan] ∧
    npStoredRow ([0, 0, 0, 0] : List ℝ) ≠
      ([0, 0, 0, 0] : List ℝ).map NpFloat.val ∧
    normalizeQuery ("IndexFlatIP") [0, 0, 0, 0] = [0, 0, 0, 0] ∧
    (VectorDatabase.add_chunks ⟨4, "IndexFlatIP", [], []⟩
      [⟨"z", "zero", "h", none, 0⟩] [[0, 0, 0, 0]]).isOk = true := by
  have h : npNorm ([0, 0, 0, 0] : List ℝ) = 0 := by
    unfold npNorm
    norm_num
  refine ⟨?_, ?_, ?_, rfl⟩
  · unfold npStoredRow npDiv
    rw [h]
    norm_num
  · unfold npStoredRow npDiv
    rw [h]
    simp
  · unfold normalizeQuery
    rw [if_pos rfl, h, if_neg (lt_irrefl 0)]

/-! ## Claim C6 -/

/-- C6 counterexample: creating an index with dimension 0 (which is ≤ 0)
succeeds — the constructor performs no dimension validation. -/
theorem C6_counterexample :
    (0 : ℤ) ≤ 0 ∧
    VectorDatabase.init 0 ("IndexFlatIP") = Except.ok ⟨0, "IndexFlatIP", [], []⟩ :=
  ⟨le_refl 0, rfl⟩

/-- C6 (amended): creating an index with an unknown index type fails with
an `Unsupported index type` error and commits no state, while the dimension
is stored unvalidated — `init` succeeds for every dimension, including
non-positive ones. -/
theorem C6_index_type_validation (d : ℤ) (t : String)
    (h1 : t ≠ "IndexFlatIP") (h2 : t ≠ "IndexFlatL2") :
    VectorDatabase.init d t = Except.error ("Unsupported index type: " ++ t) ∧
    VectorDatabase.init d ("IndexFlatIP") = Except.ok ⟨d, "IndexFlatIP", [], []⟩ := by
  constructor
  · unfold VectorDatabase.init
    rw [if_neg h1, if_neg h2]
  · rfl

/-- C6 witness: the amended claim at a concrete negative dimension and a
concrete unknown index type. -/
theorem C6_index_type_validation_witness :
    VectorDatabase.init (-3) ("IndexFlatHNSW") =
      Except.error ("Unsupported index type: " ++ "IndexFlatHNSW") ∧
    VectorDatabase.init (-3) ("IndexFlatIP") =
      Except.ok ⟨-3, "IndexFlatIP", [], []⟩ :=
  C6_index_type_validation (-3) ("IndexFlatHNSW") (by decide) (by decide)

/-! ## Claim C7 -/

/-- C7: `get_database none` returns the main index, failing with the fatal
`Main database not initialized` error when none was set; `get_database
(some n)` for an unregistered name fails with the distinct
`No database found for agent` error instead of falling back to the main
index, and the two error messages are distinguishable for every name. -/
theorem C7_registry_lookup (reg : MultiAgentVectorDB) (n : String) :
    (reg.main_db = none →
      reg.get_database none = Except.error ("Main database not initialized")) ∧
    (∀ db, reg.main_db = some db → reg.get_database none = Except.ok db) ∧
    (reg.databases.lookup n = none →
      reg.get_database (some n) =
        Except.error ("No database found for agent: " ++ n)) ∧
    ("Main database not initialized" : String) ≠ "No database found for agent: " ++ n := by
  refine ⟨?_, ?_, ?_, ?_⟩
  · intro h; simp only [MultiAgentVectorDB.get_database]; rw [h]
  · intro db h; simp only [MultiAgentVectorDB.get_database]; rw [h]
  · intro h; simp only [MultiAgentVectorDB.get_database]; rw [h]
  · intro h
    have hd := congrArg String.data h
    rw [String.data_append] at hd
    injection hd with h1 h2
    exact absurd h1 (by decide)

/-- C7 witness: both error kinds at a concrete registry holding no main
index and no agent indexes, with the scenario's agent name. -/
theorem C7_registry_lookup_witness :
    MultiAgentVectorDB.get_database ⟨4, [], none⟩ none =
      Except.error ("Main database not initialized") ∧
    MultiAgentVectorDB.get_database ⟨4, [], none⟩ (some ("nonexistent_agent")) =
      Except.error ("No database found for agent: " ++ "nonexistent_agent") ∧
    ("Main database not initialized" : String) ≠
      "No database found for agent: " ++ "nonexistent_agent" :=
  ⟨(C7_registry_lookup ⟨4, [], none⟩ ("nonexistent_agent")).1 rfl,
   (C7_registry_lookup ⟨4, [], none⟩ ("nonexistent_agent")).2.2.1 rfl,
   (C7_registry_lookup ⟨4, [], none⟩ ("nonexistent_agent")).2.2.2⟩

/-! ## Claim C10 -/

/-- C10: building a database from an empty chunk list always fails with
`Cannot create database from empty chunks`; through
`create_main_database` the error propagates before the registry's main
index is assigned, so no zero-chunk main index is ever committed — while
`create_agent_database` with an empty chunk list is a silent no-op that
registers nothing. -/
theorem C10_empty_chunks (embs : List (List ℝ)) (t : String)
    (reg : MultiAgentVectorDB) (name : String) :
    VectorDatabase.create_from_chunks [] embs t =
      Except.error ("Cannot create database from empty chunks") ∧
    reg.create_main_database [] embs =
      Except.error ("Cannot create database from empty chunks") ∧
    reg.create_agent_database name [] embs = Except.ok reg :=
  ⟨rfl, rfl, rfl⟩

/-! ## Claim C8 -/

/-- C8: for an agent with no registered knowledge-base index, assembling a
context succeeds (the `ValueError` of the registry lookup is caught) with
an empty agent-knowledge list; and registering an agent knowledge base with
an empty chunk list is a no-op that creates no index. -/
theorem C8_missing_agent_kb (sys : RAGSystem) (chunk : DocumentChunk) (cfg : AgentConfig)
    (mdb : VectorDatabase) (reg : MultiAgentVectorDB) (name : String)
    (embs : List (List ℝ))
    (h1 : sys.vector_db.main_db = some mdb)
    (h2 : sys.vector_db.databases.lookup cfg.name = none) :
    sys.get_context_for_chunk chunk cfg =
      Except.ok ⟨chunk,
        (mdb.search (sys.embed_text chunk.text) cfg.retrieval.top_k
            cfg.retrieval.similarity_threshold).filter
          (fun p => decide (p.1.paragraph_id ≠ chunk.paragraph_id)),
        [], sys.global_rubric⟩ ∧
    reg.create_agent_database name [] embs = Except.ok reg := by
  refine ⟨?_, rfl⟩
  unfold RAGSystem.get_context_for_chunk
  simp only [MultiAgentVectorDB.get_database]
  rw [h1, h2]
  rfl

/-- C8 witness: a concrete system with a main index and no agent indexes;
the assembled context carries an empty agent-knowledge list. -/
theorem C8_missing_agent_kb_witness :
    RAGSystem.get_context_for_chunk
        ⟨⟨2, [], some ⟨2, "IndexFlatIP", [], []⟩⟩, fun _ => [], none⟩
        ⟨"p1", "text", "h", none, 0⟩ ⟨"agent_a", "tone", [], [], ⟨4, true, 7/10⟩⟩ =
      Except.ok ⟨⟨"p1", "text", "h", none, 0⟩, [], [], none⟩ :=
  (C8_missing_agent_kb
    ⟨⟨2, [], some ⟨2, "IndexFlatIP", [], []⟩⟩, fun _ => [], none⟩
    ⟨"p1", "text", "h", none, 0⟩ ⟨"agent_a", "tone", [], [], ⟨4, true, 7/10⟩⟩
    ⟨2, "IndexFlatIP", [], []⟩ ⟨2, [], none⟩ ("x") [] rfl rfl).1

/-! ## Claim C9 -/

theorem target_text_eq (ctx : RAGContext) :
    RAGContext.target_text ctx = "\n" ++ RAGContext.target_section ctx := by
  unfold RAGContext.target_text RAGContext.target_section
  rw [show ("):\n" : String) = "):" ++ "\n" from rfl,
    show ("\nPARAGRAPH TO REVIEW (ID: " : String) =
      "\n" ++ "PARAGRAPH TO REVIEW (ID: " from rfl]
  simp only [String.append_assoc]

theorem joinNL_cons_of_ne_nil (s : String) (l : List String) (h : l ≠ []) :
    joinNL (s :: l) = s ++ "\n" ++ joinNL l := by
  cases l with
  | nil => exact absurd rfl h
  | cons y l' =>
      cases l' with
      | nil => rfl
      | cons z l'' => rfl

theorem joinNL_append_pair (front : List String) (a b : String) :
    ∃ p : String, joinNL (front ++ [a, b]) = p ++ (a ++ "\n" ++ b) := by
  induction front with
  | nil => exact ⟨"", by rw [String.empty_append]; rfl⟩
  | cons x front ih =>
      obtain ⟨p, hp⟩ := ih
      refine ⟨x ++ "\n" ++ p, ?_⟩
      rw [List.cons_append, joinNL_cons_of_ne_nil _ _ (by simp), hp,
        String.append_assoc (x ++ "\n") p]

/-- C9: the formatted context always ends with the full, untruncated
target section — the target chunk's identifier followed by its complete
text — and whenever the assembled text exceeds the cap while prefix budget
remains, the output is exactly the kept prefix, the explicit
`[...CONTEXT TRUNCATED...]` marker, and the intact target section. -/
theorem C9_truncation_contract (fmt2 : ℝ → String) (ctx : RAGContext)
    (agent_name : String) (L : ℕ) :
    (∃ pre, ctx.format_context_for_agent fmt2 agent_name L =
      pre ++ RAGContext.target_section ctx) ∧
    ((ctx.full_context fmt2 agent_name).length > L →
      0 < ctx.available_length L →
      ctx.format_context_for_agent fmt2 agent_name L =
        (ctx.full_context fmt2 agent_name).take (ctx.available_length L).toNat
          ++ "\n[...CONTEXT TRUNCATED...]\n" ++ RAGContext.target_text ctx) := by
  constructor
  · simp only [RAGContext.format_context_for_agent]
    split
    · split
      · refine ⟨(ctx.full_context fmt2 agent_name).take
            (ctx.available_length L).toNat ++ "\n[...CONTEXT TRUNCATED...]\n" ++ "\n", ?_⟩
        rw [target_text_eq]
        simp only [String.append_assoc]
      · exact ⟨"\n", target_text_eq ctx⟩
    · unfold RAGContext.full_context RAGContext.context_parts
      obtain ⟨p, hp⟩ := joinNL_append_pair _
        ("PARAGRAPH TO REVIEW (ID: " ++ ctx.target_chunk.paragraph_id ++ "):")
        ctx.target_chunk.text
      exact ⟨p, by rw [hp]; rfl⟩
  · intro hlen havail
    simp only [RAGContext.format_context_for_agent]
    rw [if_pos hlen, if_pos havail]

set_option maxRecDepth 8000 in
/-- C9 witness: the truncation equation at the concrete context. -/
theorem C9_truncation_contract_witness :
    RAGContext.format_context_for_agent (fun _ => "") w9ctx ("reviewer") 100 =
      (RAGContext.full_context (fun _ => "") w9ctx ("reviewer")).take
          (RAGContext.available_length w9ctx 100).toNat
        ++ "\n[...CONTEXT TRUNCATED...]\n" ++ RAGContext.target_text w9ctx :=
  (C9_truncation_contract (fun _ => "") w9ctx ("reviewer") 100).2
    (by decide) (by decide)

/-! ## Claim C1 -/

theorem search_eval (db : VectorDatabase) (q : List ℝ) (k : ℕ) (t : ℝ)
    (hne : ¬ db.vectors.length = 0) :
    db.search q k t =
      ((db.faissTop (db.queryScores q) (min k db.vectors.length)).filter
        fun p => decide (t ≤ p.2)).map fun p => (db.chunks.getD p.1 default, p.2) := by
  unfold VectorDatabase.search
  rw [if_neg hne]

/-- C1 (amended): `search` returns at most `min k index_size` matches, and
the result is empty on an empty index or when no candidate score clears
the threshold.  The descending-score ordering holds for inner-product
(`IndexFlatIP`, cosine) indexes; for any other index type (`IndexFlatL2`)
FAISS returns squared distances in ascending order, so there the scores
are sorted ascending instead. -/
theorem C1_search_top_k (db : VectorDatabase) (q : List ℝ) (k : ℕ) (t : ℝ) :
    (db.search q k t).length ≤ min k db.vectors.length ∧
    (db.index_type = "IndexFlatIP" →
      (db.search q k t).Pairwise fun a b => b.2 ≤ a.2) ∧
    (db.index_type ≠ "IndexFlatIP" →
      (db.search q k t).Pairwise fun a b => a.2 ≤ b.2) ∧
    (db.vectors = [] → db.search q k t = []) ∧
    ((∀ s ∈ db.queryScores q, s < t) → db.search q k t = []) := by
  refine ⟨db.search_length_le q k t, ?_, ?_, db.search_empty_of_empty q k t,
    db.search_empty_of_below q k t⟩
  · intro h
    refine db.search_pairwise q k t (fun x y => y ≤ x) fun a b hab => ?_
    unfold faissBefore at hab
    rw [decide_eq_true h] at hab
    rcases hab with h1 | h1
    · exact le_of_lt (by simpa using h1)
    · exact le_of_eq h1.1.symm
  · intro h
    refine db.search_pairwise q k t (fun x y => x ≤ y) fun a b hab => ?_
    unfold faissBefore at hab
    rw [decide_eq_false h] at hab
    rcases hab with h1 | h1
    · exact le_of_lt (by simpa using h1)
    · exact le_of_eq h1.1

/-- C1 counterexample: on an `IndexFlatL2` database reachable through
`create_from_chunks`, `search` returns the squared distances in ascending
order — the first returned score is 0 and the second is 2 — so the
descending-score ordering stated for every index fails. -/
theorem C1_search_top_k_counterexample :
    VectorDatabase.create_from_chunks [cexChunk1, cexChunk2] [[1, 0], [0, 1]]
      ("IndexFlatL2") = Except.ok cexDbL2 ∧
    cexDbL2.search [1, 0] 2 0 = [(cexChunk1, 0), (cexChunk2, 2)] ∧
    (0 : ℝ) < 2 := by
  refine ⟨rfl, ?_, by norm_num⟩
  have hS : (("IndexFlatL2" : String) = "IndexFlatIP") = False := eq_false (by decide)
  have hqs : cexDbL2.queryScores [1, 0] = [0, 2] := by
    unfold VectorDatabase.queryScores VectorDatabase.rawScores normalizeQuery cexDbL2
    norm_num [hS, distL2sq]
  rw [search_eval cexDbL2 [1, 0] 2 0 (by decide), hqs]
  have htop : cexDbL2.faissTop [0, 2] (min 2 cexDbL2.vectors.length) = [(0, 0), (1, 2)] := by
    unfold VectorDatabase.faissTop cexDbL2
    norm_num [hS, idxFrom, List.insertionSort, List.orderedInsert, faissBefore]
  rw [htop]
  have h1 : (decide ((0 : ℝ) ≤ 0)) = true := decide_eq_true le_rfl
  have h2 : (decide ((0 : ℝ) ≤ 2)) = true := decide_eq_true (by norm_num)
  simp only [List.filter, h1, h2, List.map]
  rfl

/-- C1 witness: the empty-index case on a cosine database and the
no-match-clears-threshold case on a one-vector L2 database. -/
theorem C1_search_top_k_witness :
    VectorDatabase.search ⟨4, "IndexFlatIP", [], []⟩ [1, 0, 0, 0] 5 (7/10) = [] ∧
    VectorDatabase.search ⟨2, "IndexFlatL2", [[0, 0]], [⟨"a", "t", "h", none, 0⟩]⟩
      [1, 1] 3 3 = [] := by
  constructor
  · exact (C1_search_top_k ⟨4, "IndexFlatIP", [], []⟩ [1, 0, 0, 0] 5 (7/10)).2.2.2.1 rfl
  · refine (C1_search_top_k ⟨2, "IndexFlatL2", [[0, 0]], [⟨"a", "t", "h", none, 0⟩]⟩
      [1, 1] 3 3).2.2.2.2 ?_
    intro s hs
    have hS : (("IndexFlatL2" : String) = "IndexFlatIP") = False := eq_false (by decide)
    unfold VectorDatabase.queryScores VectorDatabase.rawScores normalizeQuery at hs
    simp only [hS, if_false, List.map_cons, List.map_nil, List.mem_singleton] at hs
    subst hs
    norm_num [distL2sq]

/-! ## Claim C3 -/

/-- C3: indexing the three 4-dimensional vectors `[1,0,0,0]`, `[0,1,0,0]`,
`[0.9,0.1,0,0]` in a cosine (`IndexFlatIP`) database and searching
`[1,0,0,0]` with `k = 2`, threshold `0.5` returns exactly chunk 1 with
score 1 followed by chunk 3 with score `0.9 / sqrt 0.82 ≈ 0.994`; chunk 2
is excluded, its score being 0. -/
theorem C3_concrete_scenario : ∃ s : ℝ,
    VectorDatabase.create_from_chunks [demoChunk1, demoChunk2, demoChunk3]
        [[1, 0, 0, 0], [0, 1, 0, 0], [0.9, 0.1, 0, 0]] ("IndexFlatIP") =
      Except.ok demoDb ∧
    demoDb.search [1, 0, 0, 0] 2 (0.5) = [(demoChunk1, 1), (demoChunk3, s)] ∧
    0.99 < s ∧ s < 0.995 ∧
    innerProd (normalizeRow [0, 1, 0, 0]) (normalizeQuery ("IndexFlatIP") [1, 0, 0, 0]) = 0 := by
  have h82 : (0 : ℝ) < Real.sqrt 0.82 := Real.sqrt_pos.mpr (by norm_num)
  have hub : Real.sqrt 0.82 < 0.9056 := (Real.sqrt_lt' (by norm_num)).mpr (by norm_num)
  have hlb : (0.9047 : ℝ) < Real.sqrt 0.82 := (Real.lt_sqrt (by norm_num)).mpr (by norm_num)
  have hn1 : npNorm [1, 0, 0, 0] = 1 := by
    unfold npNorm
    norm_num
  have hn2 : npNorm [0, 1, 0, 0] = 1 := by
    unfold npNorm
    norm_num
  have hn3 : npNorm [0.9, 0.1, 0, 0] = Real.sqrt 0.82 := by
    unfold npNorm
    norm_num
  have hs_pos : (0 : ℝ) < 0.9 / Real.sqrt 0.82 := div_pos (by norm_num) h82
  have hs_lt1 : (0.9 / Real.sqrt 0.82 : ℝ) < 1 := by
    rw [div_lt_one h82]
    nlinarith [hlb]
  have hs_half : (0.5 : ℝ) ≤ 0.9 / Real.sqrt 0.82 := by
    rw [le_div_iff₀ h82]
    nlinarith [hub]
  have h99 : (0.99 : ℝ) < 0.9 / Real.sqrt 0.82 := by
    rw [lt_div_iff₀ h82]
    nlinarith [hub]
  have h995 : (0.9 / Real.sqrt 0.82 : ℝ) < 0.995 := by
    rw [div_lt_iff₀ h82]
    nlinarith [hlb]
  have hqs : demoDb.queryScores [1, 0, 0, 0] = [1, 0, 0.9 / Real.sqrt 0.82] := by
    unfold VectorDatabase.queryScores VectorDatabase.rawScores normalizeQuery demoDb
      normalizeRow innerProd
    simp only [List.map_cons, List.map_nil, hn1, hn2, hn3]
    norm_num
  refine ⟨0.9 / Real.sqrt 0.82, rfl, ?_, h99, h995, ?_⟩
  · rw [search_eval demoDb [1, 0, 0, 0] 2 (0.5) (by decide), hqs]
    rw [show min 2 demoDb.vectors.length = 2 from rfl]
    have htop : demoDb.faissTop [1, 0, 0.9 / Real.sqrt 0.82] 2 =
        [(0, 1), (2, 0.9 / Real.sqrt 0.82)] := by
      unfold VectorDatabase.faissTop
      rw [show (decide (demoDb.index_type = "IndexFlatIP")) = true from rfl]
      simp [idxFrom, List.insertionSort, List.orderedInsert, faissBefore,
        lt_asymm hs_pos, hs_pos.ne, hs_lt1]
    rw [htop]
    have hd1 : (decide ((0.5 : ℝ) ≤ 1)) = true := decide_eq_true (by norm_num)
    have hd3 : (decide ((0.5 : ℝ) ≤ 0.9 / Real.sqrt 0.82)) = true := decide_eq_true hs_half
    simp only [List.filter, hd1, hd3, List.map]
    rfl
  · unfold innerProd normalizeRow normalizeQuery
    norm_num [hn1, hn2]

end AutoReviewer
